import Mathlib

/-!
Shallow embedding of the browser-extension client of the coworker server:
the background service (session handshake, authenticated fetch, message
listener), the file-tools popup (job submission, polling, plan/approve/
execute flow), the auto-pilot popup (job submission, polling, base64/UTF-8
result decoding) and the options page (allowed-roots editor).

JS strings are modelled as Lean `String` (or `List Char` where character
level reasoning is needed); machine integers do not occur; fallible
platform calls (fetch, JSON parsing, atob) are modelled with
`Option`/`Except`.
-/

set_option maxRecDepth 4000

namespace Coworker

/-- The loopback API base URL, `const API = "http://127.0.0.1:8765"`. -/
def API : String := "http://127.0.0.1:8765"

/-- A minted session as returned by `/handshake` and kept in storage. -/
structure Session where
  session_id : String
  token : String
deriving DecidableEq, Repr

/-- The extension's `chrome.storage.local` contents: the persisted
credentials (`session_id`, `token`) and the `allowed_roots` list written
by the options page.  A `none` field models an absent key. -/
structure StorageState where
  session_id : Option String
  token : Option String
  allowed_roots : Option (List String)
deriving DecidableEq, Repr

/-- JS truthiness of a possibly-absent string value: present and
non-empty. -/
def jsTruthy : Option String → Bool
  | none => false
  | some s => !(s = "")

/-- JS `x || d` on a possibly-absent string. -/
def jsOrDefault (x : Option String) (d : String) : String :=
  match x with
  | none => d
  | some s => if s = "" then d else s

/-- Outcome of the `fetch` + `r.json()` performed by `ensureSession` for
`POST /handshake`: network failure, non-2xx (`!r.ok`, which the code turns
into a thrown error), or fresh credentials. -/
inductive HandshakeOutcome where
  | netError (e : String)
  | httpNotOk
  | fresh (session_id token : String)
deriving DecidableEq, Repr

/-- Function `ensureSession` (background script): return the stored credentials if
both are present (truthy), otherwise perform the handshake and persist the
fresh pair.  Returns the session together with the storage state after the
call; `Except` models a thrown error. -/
def ensureSession (st : StorageState) (hs : HandshakeOutcome) :
    Except String (Session × StorageState) :=
  if jsTruthy st.session_id && jsTruthy st.token then
    .ok (⟨st.session_id.getD "", st.token.getD ""⟩, st)
  else
    match hs with
    | .netError e => .error e
    | .httpNotOk => .error "Handshake failed"
    | .fresh sid tok =>
        .ok (⟨sid, tok⟩, { st with session_id := some sid, token := some tok })

/-- Header list of an HTTP request; later entries override earlier ones,
as with `Object.assign`. -/
def lookupHeader : List (String × String) → String → Option String
  | [], _ => none
  | (k, v) :: rest, key =>
      match lookupHeader rest key with
      | some v2 => some v2
      | none => if k = key then some v else none

/-- Payload of a request body (`JSON.stringify(msg.body)`): kept
structured rather than serialized. -/
structure ApproveBody where
  plan_job_id : String
  ttl_seconds : Nat
deriving DecidableEq, Repr

/-- Tool-call parameters, a JSON object of string-valued fields. -/
def Params := List (String × String)
deriving DecidableEq, Repr

/-- First-wins association lookup on a params object. -/
def findVal : List (String × String) → String → Option String
  | [], _ => none
  | (k, v) :: rest, key => if k = key then some v else findVal rest key

/-- A submitted job body, `{dedupe_key, type, allowed_roots, params}` plus
the conditionally-set `approval_token` key (`none` = key absent). -/
structure JobBody where
  dedupe_key : String
  type : Nat
  allowed_roots : List String
  params : Params
  approval_token : Option String
deriving DecidableEq

/-- The JSON keys present on a job body as sent over the wire. -/
def JobBody.keys (b : JobBody) : List String :=
  ["dedupe_key", "type", "allowed_roots", "params"] ++
    (if b.approval_token.isSome then ["approval_token"] else [])

/-- A request body is either a job submission or an approval request. -/
inductive ReqPayload where
  | job (b : JobBody)
  | approve (b : ApproveBody)
deriving DecidableEq

/-- The second argument of `fetch`. -/
structure RequestOptions where
  method : String := "GET"
  headers : List (String × String) := []
  body : Option ReqPayload := none
deriving DecidableEq

/-- An HTTP request as handed to `fetch`. -/
structure Request where
  url : String
  method : String
  headers : List (String × String)
  body : Option ReqPayload
deriving DecidableEq

/-- Name of the session header. -/
def hdrSession : String := "X-Coworker-Session"

/-- Name of the token header. -/
def hdrToken : String := "X-Coworker-Token"

/-- Function `apiFetch(path, options)` (background script): the request issued,
with the session headers assigned over any caller headers
(`Object.assign({}, options.headers, {...})`). -/
def apiFetch (s : Session) (path : String) (opts : RequestOptions) : Request :=
  { url := API ++ path
    method := opts.method
    headers := opts.headers ++
      [(hdrSession, s.session_id), (hdrToken, s.token),
       ("Content-Type", "application/json")]
    body := opts.body }

/-- The request issued by `ensureSession` itself:
`fetch(API + "/handshake", {method: "POST"})` — no headers at all. -/
def handshakeRequest : Request :=
  { url := API ++ "/handshake", method := "POST", headers := [], body := none }

/-- A message sent to the background listener. -/
inductive Msg where
  | tools
  | submit_job (body : JobBody)
  | get_job (job_id : String)
  | get_result (job_id : String)
  | approve (body : ApproveBody)
  | unknown
deriving DecidableEq

/-- The request a recognized message type issues through `apiFetch`;
`none` for the unrecognized case, which issues no request. -/
def requestFor (s : Session) : Msg → Option Request
  | .tools => some (apiFetch s "/tools" {})
  | .submit_job b =>
      some (apiFetch s "/jobs" { method := "POST", body := some (.job b) })
  | .get_job id => some (apiFetch s ("/jobs/" ++ id) {})
  | .get_result id => some (apiFetch s ("/jobs/" ++ id ++ "/result") {})
  | .approve b =>
      some (apiFetch s "/approve" { method := "POST", body := some (.approve b) })
  | .unknown => none

/-- Outcome of `await apiFetch(...)` followed by `await r.json()`:
a network-level throw, or a response with some HTTP status whose body
either parses to a value of `α` or throws. -/
inductive FetchResult (α : Type) where
  | netError (e : String)
  | resp (status : Nat) (body : Except String α)

/-- The reply passed to `sendResponse`: `{ok: true, data}` or
`{ok: false, error}`. -/
inductive Reply (α : Type) where
  | success (data : α)
  | failure (error : String)
deriving DecidableEq

/-- One round of the background `chrome.runtime.onMessage` listener:
given the message, the current storage, the handshake oracle and the fetch
outcome, produce the reply and the storage afterwards.  Recognized
messages authenticate via `ensureSession` and reply `ok: true` with the
parsed body whenever `r.json()` succeeds, with no inspection of the HTTP
status; every thrown error is caught and replied as `ok: false`. -/
def listenerStep {α : Type} (msg : Msg) (st : StorageState)
    (hs : HandshakeOutcome) (fetch : FetchResult α) :
    Reply α × StorageState :=
  match msg with
  | .unknown => (.failure "Unknown message type", st)
  | _ =>
      match ensureSession st hs with
      | .error e => (.failure e, st)
      | .ok (_, st') =>
          match fetch with
          | .netError e => (.failure e, st')
          | .resp _ (.error e) => (.failure e, st')
          | .resp _ (.ok d) => (.success d, st')

end Coworker

namespace Coworker.Popup

/-- Function `getOptions()` in the popups: read `allowed_roots` from storage,
defaulting to the empty list. -/
def getOptionsRoots (stored : Option (List String)) : List String :=
  stored.getD []

/-- The dedupe key built by the file-tools popup's `submitJob`:
`` `${type}:${Date.now()}:${Math.random()}` ``. -/
def popupDedupeKey (type : Nat) (now : Nat) (rand : String) : String :=
  toString type ++ ":" ++ toString now ++ ":" ++ rand

/-- The job body built by the file-tools popup's
`submitJob(type, params, approval_token = null)`: the four fixed keys,
with `approval_token` set only when the supplied token is truthy. -/
def submitJobBody (stored : Option (List String)) (type : Nat)
    (params : Params) (approval_token : Option String)
    (now : Nat) (rand : String) : JobBody :=
  { dedupe_key := popupDedupeKey type now rand
    type := type
    allowed_roots := getOptionsRoots stored
    params := params
    approval_token := if jsTruthy approval_token then approval_token else none }

/-- A polled job row as returned by `GET /jobs/{id}`. -/
structure JobRow where
  status : Nat
  error_message : Option String
deriving DecidableEq, Repr

/-- Result of a poll loop: the returned row, or the thrown error. -/
inductive PollOutcome where
  | ok (j : JobRow)
  | err (msg : String)
deriving DecidableEq, Repr

/-- Number of iterations of the file-tools popup's poll loop
(`for (let i = 0; i < 60; i++)`). -/
def popupPollIters : Nat := 60

/-- Delay between file-tools popup poll iterations
(`setTimeout(res, 800)`), in milliseconds. -/
def popupPollDelayMs : Nat := 800

/-- The file-tools popup's poll loop from iteration `i` with `fuel`
iterations remaining; `resp k` is the reply to the `k`-th `GET_JOB`
message. -/
def pollFrom (resp : Nat → Reply JobRow) : Nat → Nat → PollOutcome
  | 0, _ => .err "Timeout waiting for job."
  | fuel + 1, i =>
      match resp i with
      | .failure e => .err e
      | .success j =>
          if j.status = 3 then .ok j
          else if j.status = 4 then
            .err ("Job failed: " ++ jsOrDefault j.error_message "Unknown error")
          else pollFrom resp fuel (i + 1)

/-- Function `poll(jobId)` of the file-tools popup. -/
def poll (resp : Nat → Reply JobRow) : PollOutcome :=
  pollFrom resp popupPollIters 0

/-- Outcome of the `APPROVE` round trip in the Execute handler: the reply
either fails or carries `data.approval_token`. -/
inductive ApproveOutcome where
  | failure (error : String)
  | success (approval_token : String)
deriving DecidableEq, Repr

/-- The `btnExecute.onclick` handler, up to its job submission: returns
the approval request body issued (if any) and the job body submitted (if
any).  With no recorded `lastPlanJobId` it does neither; otherwise it
requests an approval with `{plan_job_id, ttl_seconds: 120}` and, on
success, runs tool 5 with `{plan_job_id, workspace_root}` and the returned
token. -/
def btnExecute (lastPlanJobId : Option String) (root : String)
    (stored : Option (List String)) (outcome : ApproveOutcome)
    (now : Nat) (rand : String) : Option ApproveBody × Option JobBody :=
  match lastPlanJobId with
  | none => (none, none)
  | some pid =>
      ( some { plan_job_id := pid, ttl_seconds := 120 }
      , match outcome with
        | .failure _ => none
        | .success tok =>
            some (submitJobBody stored 5
              [("plan_job_id", pid), ("workspace_root", root)]
              (some tok) now rand) )

end Coworker.Popup

namespace Coworker.AutoPilot

/-- The dedupe key built by the auto-pilot popup's `submitJob`:
`` `job_${Date.now()}_${Math.random()}` ``. -/
def autoPilotDedupeKey (now : Nat) (rand : String) : String :=
  "job_" ++ toString now ++ "_" ++ rand

/-- The job body built by the auto-pilot popup's `submitJob(type, params)`:
always exactly the four fixed keys, never an `approval_token`. -/
def submitJobBody (stored : Option (List String)) (type : Nat)
    (params : Params) (now : Nat) (rand : String) : JobBody :=
  { dedupe_key := autoPilotDedupeKey now rand
    type := type
    allowed_roots := Popup.getOptionsRoots stored
    params := params
    approval_token := none }

/-- Number of iterations of the auto-pilot poll loop
(`for (let i = 0; i < 150; i++)`). -/
def autoPollIters : Nat := 150

/-- Delay between auto-pilot poll iterations (`setTimeout(res, 200)`),
in milliseconds. -/
def autoPollDelayMs : Nat := 200

/-- The auto-pilot popup's poll loop from iteration `i` with `fuel`
iterations remaining. -/
def pollFrom (resp : Nat → Reply Popup.JobRow) : Nat → Nat → Popup.PollOutcome
  | 0, _ => .err "Job timed out."
  | fuel + 1, i =>
      match resp i with
      | .failure e => .err e
      | .success j =>
          if j.status = 3 then .ok j
          else if j.status = 4 then
            .err (jsOrDefault j.error_message "Processing failed")
          else pollFrom resp fuel (i + 1)

/-- Function `poll(jobId)` of the auto-pilot popup. -/
def poll (resp : Nat → Reply Popup.JobRow) : Popup.PollOutcome :=
  pollFrom resp autoPollIters 0

end Coworker.AutoPilot

namespace Coworker.OptionsPage

/-- ECMAScript whitespace as removed by `String.prototype.trim`:
WhiteSpace (tab, VT, FF, space, NBSP, BOM and the Zs category) together
with the line terminators. -/
def jsWs (c : Char) : Bool :=
  c.toNat == 0x9 || c.toNat == 0xb || c.toNat == 0xc || c.toNat == 0x20 ||
  c.toNat == 0xa0 || c.toNat == 0xfeff ||
  c.toNat == 0xa || c.toNat == 0xd || c.toNat == 0x2028 || c.toNat == 0x2029 ||
  c.toNat == 0x1680 || (0x2000 ≤ c.toNat && c.toNat ≤ 0x200a) ||
  c.toNat == 0x202f || c.toNat == 0x205f || c.toNat == 0x3000

/-- JS `s.trim()` on the character list: drop whitespace from both ends. -/
def jsTrimL (s : List Char) : List Char :=
  ((s.dropWhile jsWs).reverse.dropWhile jsWs).reverse

/-- JS `s.trim()` on strings. -/
def jsTrim (s : String) : String :=
  ⟨jsTrimL s.data⟩

/-- JS `s.split("\n")` on the character list: split at every newline,
keeping empty segments. -/
def splitNl : List Char → List (List Char)
  | [] => [[]]
  | c :: rest =>
      if c = '\n' then [] :: splitNl rest
      else
        match splitNl rest with
        | [] => [[c]]
        | seg :: segs => (c :: seg) :: segs

/-- JS `s.split("\n")` on strings. -/
def splitLines (s : String) : List String :=
  (splitNl s.data).map (fun l => ⟨l⟩)

/-- The options-page save handler (`save.onclick`): the `allowed_roots`
list written to storage from the textarea content,
`roots.value.split("\n").map(s => s.trim()).filter(Boolean)`. -/
def saveRoots (content : String) : List String :=
  ((splitLines content).map jsTrim).filter (fun s => !(s = ""))

/-- The storage state after the save handler runs: only `allowed_roots`
is written. -/
def optionsSave (st : StorageState) (content : String) : StorageState :=
  { st with allowed_roots := some (saveRoots content) }

end Coworker.OptionsPage

namespace Coworker.B64

/-- The standard base64 alphabet used by `btoa`/`atob`. -/
def alphabet : List Char :=
  ['A','B','C','D','E','F','G','H','I','J','K','L','M',
   'N','O','P','Q','R','S','T','U','V','W','X','Y','Z',
   'a','b','c','d','e','f','g','h','i','j','k','l','m',
   'n','o','p','q','r','s','t','u','v','w','x','y','z',
   '0','1','2','3','4','5','6','7','8','9','+','/']

/-- Encoding table: sextet value to alphabet character. -/
def tbl (n : Nat) : Char :=
  alphabet.getD n '?'

/-- Position of a character in a list, counting from `i`. -/
def idxFrom : List Char → Char → Nat → Option Nat
  | [], _, _ => none
  | a :: rest, c, i => if a = c then some i else idxFrom rest c (i + 1)

/-- Decoding table: alphabet character to sextet value, `none` for any
character outside the alphabet (including `=`). -/
def tblInv (c : Char) : Option Nat :=
  idxFrom alphabet c 0

/-- Standard base64 encoding of a byte sequence, as performed by `btoa`
on a binary string: three bytes become four sextet characters, a two-byte
remainder becomes three characters plus `=`, a one-byte remainder becomes
two characters plus `==`. -/
def b64encode : List Nat → List Char
  | a :: b :: c :: rest =>
      tbl (a / 4) :: tbl ((a % 4) * 16 + b / 16) ::
      tbl ((b % 16) * 4 + c / 64) :: tbl (c % 64) :: b64encode rest
  | [a, b] =>
      [tbl (a / 4), tbl ((a % 4) * 16 + b / 16), tbl ((b % 16) * 4), '=']
  | [a] => [tbl (a / 4), tbl ((a % 4) * 16), '=', '=']
  | [] => []

/-- ASCII whitespace, removed by forgiving-base64 decoding. -/
def asciiWs (c : Char) : Bool :=
  c == '\t' || c == '\n' || c == '\x0c' || c == '\r' || c == ' '

/-- Forgiving-base64 decode of a whitespace-free character list, grouped
four characters at a time; `=` padding is accepted only at the very end,
trailing bits of an incomplete final group are discarded, and any other
non-alphabet character is an error (`none`). -/
def atobChars : List Char → Option (List Nat)
  | [] => some []
  | [_] => none
  | [c0, c1] =>
      match tblInv c0, tblInv c1 with
      | some s0, some s1 => some [s0 * 4 + s1 / 16]
      | _, _ => none
  | [c0, c1, c2] =>
      match tblInv c0, tblInv c1, tblInv c2 with
      | some s0, some s1, some s2 =>
          some [s0 * 4 + s1 / 16, (s1 % 16) * 16 + s2 / 4]
      | _, _, _ => none
  | c0 :: c1 :: c2 :: c3 :: rest =>
      if rest = [] ∧ c3 = '=' then
        if c2 = '=' then
          match tblInv c0, tblInv c1 with
          | some s0, some s1 => some [s0 * 4 + s1 / 16]
          | _, _ => none
        else
          match tblInv c0, tblInv c1, tblInv c2 with
          | some s0, some s1, some s2 =>
              some [s0 * 4 + s1 / 16, (s1 % 16) * 16 + s2 / 4]
          | _, _, _ => none
      else
        match tblInv c0, tblInv c1, tblInv c2, tblInv c3, atobChars rest with
        | some s0, some s1, some s2, some s3, some bytes =>
            some ([s0 * 4 + s1 / 16, (s1 % 16) * 16 + s2 / 4,
              (s2 % 4) * 64 + s3] ++ bytes)
        | _, _, _, _, _ => none

/-- Browser `atob` (WHATWG forgiving-base64 decode followed by `charCodeAt` over
the binary string): strip ASCII whitespace, then decode; `none` models a
thrown `InvalidCharacterError`. -/
def atob (s : List Char) : Option (List Nat) :=
  atobChars (s.filter (fun c => !asciiWs c))

end Coworker.B64

namespace Coworker.Utf8

/-- Modelled from the WHATWG Encoding standard's UTF-8 decoder (the
default `TextDecoder`): lower boundary of the first continuation byte for
a given leading byte. -/
def lowerBoundary (b : Nat) : Nat :=
  if b = 0xe0 then 0xa0 else if b = 0xf0 then 0x90 else 0x80

/-- Upper boundary of the first continuation byte for a given leading
byte (excludes surrogates after `0xed` and values above U+10FFFF after
`0xf4`). -/
def upperBoundary (b : Nat) : Nat :=
  if b = 0xed then 0x9f else if b = 0xf4 then 0x8f else 0xbf

/-- A continuation byte. -/
def IsCont (b : Nat) : Prop :=
  0x80 ≤ b ∧ b ≤ 0xbf

instance (b : Nat) : Decidable (IsCont b) := by
  unfold IsCont; infer_instance

/-- Modelled from the WHATWG Encoding standard: the UTF-8 decoder of
`new TextDecoder().decode` in non-fatal mode, producing the sequence of
decoded code points with U+FFFD for each error, reconsuming the offending
byte as the standard prescribes. -/
def utf8Decode : List Nat → List Nat
  | [] => []
  | b :: rest =>
      if b < 0x80 then b :: utf8Decode rest
      else if 0xc2 ≤ b ∧ b ≤ 0xdf then
        match rest with
        | [] => [0xfffd]
        | b1 :: rest1 =>
            if IsCont b1 then
              ((b - 0xc0) * 64 + (b1 - 0x80)) :: utf8Decode rest1
            else 0xfffd :: utf8Decode (b1 :: rest1)
      else if 0xe0 ≤ b ∧ b ≤ 0xef then
        match rest with
        | [] => [0xfffd]
        | b1 :: rest1 =>
            if lowerBoundary b ≤ b1 ∧ b1 ≤ upperBoundary b then
              match rest1 with
              | [] => [0xfffd]
              | b2 :: rest2 =>
                  if IsCont b2 then
                    ((b - 0xe0) * 4096 + (b1 - 0x80) * 64 + (b2 - 0x80)) ::
                      utf8Decode rest2
                  else 0xfffd :: utf8Decode (b2 :: rest2)
            else 0xfffd :: utf8Decode (b1 :: rest1)
      else if 0xf0 ≤ b ∧ b ≤ 0xf4 then
        match rest with
        | [] => [0xfffd]
        | b1 :: rest1 =>
            if lowerBoundary b ≤ b1 ∧ b1 ≤ upperBoundary b then
              match rest1 with
              | [] => [0xfffd]
              | b2 :: rest2 =>
                  if IsCont b2 then
                    match rest2 with
                    | [] => [0xfffd]
                    | b3 :: rest3 =>
                        if IsCont b3 then
                          ((b - 0xf0) * 262144 + (b1 - 0x80) * 4096 +
                            (b2 - 0x80) * 64 + (b3 - 0x80)) :: utf8Decode rest3
                        else 0xfffd :: utf8Decode (b3 :: rest3)
                  else 0xfffd :: utf8Decode (b2 :: rest2)
            else 0xfffd :: utf8Decode (b1 :: rest1)
      else 0xfffd :: utf8Decode rest

/-- A Unicode scalar value: a code point that is not a surrogate. -/
def ScalarValue (c : Nat) : Prop :=
  c < 0x110000 ∧ (c < 0xd800 ∨ 0xe000 ≤ c)

instance (c : Nat) : Decidable (ScalarValue c) := by
  unfold ScalarValue; infer_instance

/-- UTF-8 encoding of a single scalar value (the WHATWG `TextEncoder`
byte sequence for one code point). -/
def utf8EncodeCp (c : Nat) : List Nat :=
  if c < 0x80 then [c]
  else if c < 0x800 then [0xc0 + c / 64, 0x80 + c % 64]
  else if c < 0x10000 then
    [0xe0 + c / 4096, 0x80 + c / 64 % 64, 0x80 + c % 64]
  else
    [0xf0 + c / 262144, 0x80 + c / 4096 % 64, 0x80 + c / 64 % 64,
     0x80 + c % 64]

/-- UTF-8 encoding of a sequence of scalar values. -/
def utf8Encode (s : List Nat) : List Nat :=
  s.flatMap utf8EncodeCp

end Coworker.Utf8

namespace Coworker.AutoPilot

/-- Function `decodeUTF8(base64)` of the auto-pilot popup: `atob`, then bytes via
`charCodeAt`, then `new TextDecoder().decode`; `none` models the throw of
`atob` on invalid input. -/
def decodeUTF8 (base64 : List Char) : Option (List Nat) :=
  match B64.atob base64 with
  | none => none
  | some bytes => some (Utf8.utf8Decode bytes)

end Coworker.AutoPilot

namespace Coworker

/-- Whether a character list starts with the given needle. -/
def begMatch : List Char → List Char → Bool
  | [], _ => true
  | _ :: _, [] => false
  | a :: as, b :: bs => a = b && begMatch as bs

/-- Whether the needle occurs as a contiguous segment of the haystack. -/
def subSeg : List Char → List Char → Bool
  | ns, [] => ns.isEmpty
  | ns, h :: t => begMatch ns (h :: t) || subSeg ns t

/-- The dedupe-key builders of the source's two job-submitting callers
(`submitJob` in the file-tools popup and in the auto-pilot popup), each a
function of `Date.now()` and `Math.random()`. -/
def IsSourceDedupeBuilder (f : Nat → String → String) : Prop :=
  (∃ type, f = Popup.popupDedupeKey type) ∨ f = AutoPilot.autoPilotDedupeKey

/-- A dedupe-key builder includes the timestamp: the decimal rendering of
`Date.now()` occurs in every key it builds. -/
def UsesTimestamp (f : Nat → String → String) : Prop :=
  ∀ now rand, subSeg (toString now).data ((f now rand)).data = true

/-- The claim that the source's job-submitting callers are inconsistent
about timestamps: some dedupe-key builder includes one and some builder
does not. -/
def DedupeKeysInconsistent : Prop :=
  (∃ f, IsSourceDedupeBuilder f ∧ UsesTimestamp f) ∧
  (∃ f, IsSourceDedupeBuilder f ∧ ¬ UsesTimestamp f)

end Coworker

namespace Coworker

theorem lookupHeader_append (xs ys : List (String × String)) (k : String) :
    lookupHeader (xs ++ ys) k =
      match lookupHeader ys k with
      | some v => some v
      | none => lookupHeader xs k := by
  induction xs with
  | nil => cases h : lookupHeader ys k <;> simp [lookupHeader, h]
  | cons x xs ih =>
      obtain ⟨k1, v1⟩ := x
      simp only [List.cons_append, lookupHeader, List.append_eq]
      rw [ih]
      cases h : lookupHeader ys k <;> cases h2 : lookupHeader xs k <;> simp

theorem lookupHeader_fixed_session (s : Session) :
    lookupHeader
      [(hdrSession, s.session_id), (hdrToken, s.token),
       ("Content-Type", "application/json")] hdrSession = some s.session_id := by
  simp [lookupHeader, hdrSession, hdrToken]

theorem lookupHeader_fixed_token (s : Session) :
    lookupHeader
      [(hdrSession, s.session_id), (hdrToken, s.token),
       ("Content-Type", "application/json")] hdrToken = some s.token := by
  simp [lookupHeader, hdrSession, hdrToken]

/-- C4: every request issued through `apiFetch` — and hence the request
issued for each of the message types TOOLS, SUBMIT_JOB, GET_JOB,
GET_RESULT and APPROVE — carries both `X-Coworker-Session` and
`X-Coworker-Token` taken from the stored session, overriding any caller
headers; the `POST /handshake` request issued by `ensureSession` carries
neither header. -/
theorem apiFetch_session_headers (s : Session) :
    (∀ path opts,
        lookupHeader (apiFetch s path opts).headers hdrSession =
            some s.session_id ∧
        lookupHeader (apiFetch s path opts).headers hdrToken = some s.token) ∧
    (∀ msg req, requestFor s msg = some req →
        lookupHeader req.headers hdrSession = some s.session_id ∧
        lookupHeader req.headers hdrToken = some s.token) ∧
    lookupHeader handshakeRequest.headers hdrSession = none ∧
    lookupHeader handshakeRequest.headers hdrToken = none := by
  have base : ∀ path opts,
      lookupHeader (apiFetch s path opts).headers hdrSession =
          some s.session_id ∧
      lookupHeader (apiFetch s path opts).headers hdrToken = some s.token := by
    intro path opts
    constructor
    · rw [apiFetch]
      rw [lookupHeader_append]
      rw [lookupHeader_fixed_session]
    · rw [apiFetch]
      rw [lookupHeader_append]
      rw [lookupHeader_fixed_token]
  refine ⟨base, ?_, rfl, rfl⟩
  intro msg req h
  cases msg <;> simp only [requestFor, Option.some.injEq] at h <;>
    first
      | exact absurd h (by simp)
      | (subst h; exact base _ _)

/-- Witness for C4 at a concrete session and the TOOLS message. -/
theorem apiFetch_session_headers_witness :
    lookupHeader (apiFetch ⟨"sid0", "tok0"⟩ "/tools" {}).headers hdrSession =
        some "sid0" ∧
    lookupHeader (apiFetch ⟨"sid0", "tok0"⟩ "/tools" {}).headers hdrToken =
        some "tok0" :=
  (apiFetch_session_headers ⟨"sid0", "tok0"⟩).2.1 .tools
    (apiFetch ⟨"sid0", "tok0"⟩ "/tools" {}) rfl

/-- C7: once a truthy `(session_id, token)` pair is stored, every call to
`ensureSession` returns that pair with the storage unchanged and without
handshaking (the result does not depend on the handshake oracle); the
background listener leaves the stored credentials untouched for every
message and every fetch outcome (including a 401 response), and the
options-page save handler writes only `allowed_roots`. -/
theorem ensureSession_never_rotates (st : StorageState) (hs : HandshakeOutcome)
    (sid tok : String) (h1 : st.session_id = some sid) (h2 : st.token = some tok)
    (h3 : sid ≠ "") (h4 : tok ≠ "") :
    ensureSession st hs = .ok (⟨sid, tok⟩, st) ∧
    (∀ (α : Type) (msg : Msg) (f : FetchResult α),
        (listenerStep msg st hs f).2 = st) ∧
    (∀ content,
        (OptionsPage.optionsSave st content).session_id = some sid ∧
        (OptionsPage.optionsSave st content).token = some tok) := by
  have hses : ensureSession st hs = .ok (⟨sid, tok⟩, st) := by
    simp only [ensureSession, h1, h2, jsTruthy]
    simp [h3, h4]
  refine ⟨hses, ?_, ?_⟩
  · intro α msg f
    cases msg <;> simp only [listenerStep, hses] <;> cases f with
      | netError e => rfl
      | resp status body => cases body <;> rfl
  · intro content
    simp [OptionsPage.optionsSave, h1, h2]

/-- Witness for C7 at a concrete storage state, message and a 401 fetch
outcome. -/
theorem ensureSession_never_rotates_witness :
    ensureSession ⟨some "s1", some "t1", none⟩ .httpNotOk =
        .ok (⟨"s1", "t1"⟩, ⟨some "s1", some "t1", none⟩) ∧
    (listenerStep .tools ⟨some "s1", some "t1", none⟩ .httpNotOk
        (.resp 401 (.ok (0 : Nat)))).2 = ⟨some "s1", some "t1", none⟩ :=
  ⟨(ensureSession_never_rotates ⟨some "s1", some "t1", none⟩ .httpNotOk
      "s1" "t1" rfl rfl (by decide) (by decide)).1,
   (ensureSession_never_rotates ⟨some "s1", some "t1", none⟩ .httpNotOk
      "s1" "t1" rfl rfl (by decide) (by decide)).2.1 Nat .tools
      (.resp 401 (.ok 0))⟩

/-- C8: for every recognized message type the listener replies
`ok: true` with the parsed body whenever the fetch completes and the body
parses, regardless of the HTTP status (so a 401 or 404 error body is
delivered as a success reply); it replies `ok: false` exactly when the
fetch or the JSON parse throws, or the message type is unrecognized. -/
theorem listener_ok_ignores_status {α : Type} (msg : Msg) (st : StorageState)
    (hs : HandshakeOutcome) (s : Session) (st' : StorageState)
    (hmsg : msg ≠ .unknown) (hsess : ensureSession st hs = .ok (s, st')) :
    (∀ (status : Nat) (d : α),
        (listenerStep msg st hs (.resp status (.ok d))).1 = .success d) ∧
    (∀ (status : Nat) (e : String),
        (listenerStep msg st hs (.resp status (.error e) : FetchResult α)).1 =
            .failure e) ∧
    (∀ e, (listenerStep msg st hs (.netError e : FetchResult α)).1 =
        .failure e) ∧
    (∀ f : FetchResult α,
        (listenerStep .unknown st hs f).1 = .failure "Unknown message type") := by
  refine ⟨?_, ?_, ?_, fun f => rfl⟩ <;>
    cases msg <;> first
      | exact absurd rfl hmsg
      | (intros; simp [listenerStep, hsess])

/-- Witness for C8: a 401 response with a parsed error body is replied
as `ok: true`. -/
theorem listener_ok_ignores_status_witness :
    (listenerStep .tools ⟨some "s2", some "t2", none⟩ .httpNotOk
        (.resp 401 (.ok (7 : Nat)))).1 = .success 7 :=
  (listener_ok_ignores_status .tools ⟨some "s2", some "t2", none⟩ .httpNotOk
      ⟨"s2", "t2"⟩ ⟨some "s2", some "t2", none⟩ (by decide)
      (by simp [ensureSession, jsTruthy])).1 401 7

end Coworker

namespace Coworker

/-- C2: in both poll loops, a polled row is returned exactly when
`status = 3`, throws an error carrying the row's `error_message` exactly
when `status = 4`, and any other status (in particular 1 QUEUED and
2 RUNNING) continues polling. -/
theorem poll_status_semantics (resp : Nat → Reply Popup.JobRow)
    (fuel i : Nat) (j : Popup.JobRow) (h : resp i = .success j) :
    (j.status = 3 → Popup.pollFrom resp (fuel + 1) i = .ok j) ∧
    (j.status = 4 → Popup.pollFrom resp (fuel + 1) i =
        .err ("Job failed: " ++ jsOrDefault j.error_message "Unknown error")) ∧
    (j.status ≠ 3 → j.status ≠ 4 →
        Popup.pollFrom resp (fuel + 1) i = Popup.pollFrom resp fuel (i + 1)) ∧
    (j.status = 1 ∨ j.status = 2 →
        Popup.pollFrom resp (fuel + 1) i = Popup.pollFrom resp fuel (i + 1)) ∧
    (j.status = 3 → AutoPilot.pollFrom resp (fuel + 1) i = .ok j) ∧
    (j.status = 4 → AutoPilot.pollFrom resp (fuel + 1) i =
        .err (jsOrDefault j.error_message "Processing failed")) ∧
    (j.status ≠ 3 → j.status ≠ 4 →
        AutoPilot.pollFrom resp (fuel + 1) i =
          AutoPilot.pollFrom resp fuel (i + 1)) ∧
    (j.status = 1 ∨ j.status = 2 →
        AutoPilot.pollFrom resp (fuel + 1) i =
          AutoPilot.pollFrom resp fuel (i + 1)) := by
  refine ⟨?_, ?_, ?_, ?_, ?_, ?_, ?_, ?_⟩ <;>
    intro h1 <;>
    first
      | (intro h2; simp [Popup.pollFrom, AutoPilot.pollFrom, h, h1, h2])
      | (rcases h1 with h1 | h1 <;>
          simp [Popup.pollFrom, AutoPilot.pollFrom, h, h1])
      | simp [Popup.pollFrom, AutoPilot.pollFrom, h, h1]

/-- Witness for C2: a row with status 3 is returned at once. -/
theorem poll_status_semantics_witness :
    Popup.pollFrom (fun _ => .success ⟨3, none⟩) 1 0 = .ok ⟨3, none⟩ :=
  (poll_status_semantics (fun _ => .success ⟨3, none⟩) 0 0 ⟨3, none⟩ rfl).1 rfl

theorem popup_pollFrom_timeout (resp : Nat → Reply Popup.JobRow)
    (h : ∀ k, ∃ j, resp k = .success j ∧ j.status ≠ 3 ∧ j.status ≠ 4) :
    ∀ fuel i, Popup.pollFrom resp fuel i = .err "Timeout waiting for job." := by
  intro fuel
  induction fuel with
  | zero => intro i; rfl
  | succ n ih =>
      intro i
      obtain ⟨j, hj, h3, h4⟩ := h i
      simp [Popup.pollFrom, hj, h3, h4, ih]

theorem auto_pollFrom_timeout (resp : Nat → Reply Popup.JobRow)
    (h : ∀ k, ∃ j, resp k = .success j ∧ j.status ≠ 3 ∧ j.status ≠ 4) :
    ∀ fuel i, AutoPilot.pollFrom resp fuel i = .err "Job timed out." := by
  intro fuel
  induction fuel with
  | zero => intro i; rfl
  | succ n ih =>
      intro i
      obtain ⟨j, hj, h3, h4⟩ := h i
      simp [AutoPilot.pollFrom, hj, h3, h4, ih]

/-- C3: on any endless stream of non-terminal replies, each poll loop
terminates after its fixed iteration bound with a timeout error: 60
iterations at 800 ms in the file-tools popup, 150 iterations at 200 ms in
the auto-pilot popup. -/
theorem poll_bounded_timeout (resp : Nat → Reply Popup.JobRow)
    (h : ∀ k, ∃ j, resp k = .success j ∧ j.status ≠ 3 ∧ j.status ≠ 4) :
    Popup.poll resp = .err "Timeout waiting for job." ∧
    AutoPilot.poll resp = .err "Job timed out." ∧
    Popup.popupPollIters = 60 ∧ Popup.popupPollDelayMs = 800 ∧
    AutoPilot.autoPollIters = 150 ∧ AutoPilot.autoPollDelayMs = 200 :=
  ⟨popup_pollFrom_timeout resp h Popup.popupPollIters 0,
   auto_pollFrom_timeout resp h AutoPilot.autoPollIters 0,
   rfl, rfl, rfl, rfl⟩

/-- Witness for C3 on the constant QUEUED stream. -/
theorem poll_bounded_timeout_witness :
    Popup.poll (fun _ => .success ⟨1, none⟩) = .err "Timeout waiting for job." ∧
    AutoPilot.poll (fun _ => .success ⟨1, none⟩) = .err "Job timed out." :=
  ⟨(poll_bounded_timeout (fun _ => .success ⟨1, none⟩)
      (fun _ => ⟨⟨1, none⟩, rfl, by decide, by decide⟩)).1,
   (poll_bounded_timeout (fun _ => .success ⟨1, none⟩)
      (fun _ => ⟨⟨1, none⟩, rfl, by decide, by decide⟩)).2.1⟩

/-- C1: with a recorded `lastPlanJobId` the Execute handler first
requests an approval `{plan_job_id, ttl_seconds: 120}`; on success it
submits a type-5 job whose params carry `plan_job_id` and whose body
carries the returned `approval_token`; on approval failure it submits
nothing; with no recorded plan id it issues neither request. -/
theorem btnExecute_approve_then_submit (pid root : String)
    (stored : Option (List String)) (tok : String) (now : Nat) (rand : String)
    (htok : tok ≠ "") :
    (Popup.btnExecute (some pid) root stored (.success tok) now rand).1 =
        some ⟨pid, 120⟩ ∧
    (∃ b, (Popup.btnExecute (some pid) root stored (.success tok) now rand).2 =
        some b ∧
      b.type = 5 ∧ findVal b.params "plan_job_id" = some pid ∧
      b.approval_token = some tok) ∧
    (∀ e, (Popup.btnExecute (some pid) root stored (.failure e) now rand).1 =
          some ⟨pid, 120⟩ ∧
        (Popup.btnExecute (some pid) root stored (.failure e) now rand).2 =
          none) ∧
    (∀ outcome, Popup.btnExecute none root stored outcome now rand =
        (none, none)) := by
  refine ⟨rfl, ⟨_, rfl, rfl, ?_, ?_⟩, fun e => ⟨rfl, rfl⟩, fun outcome => rfl⟩
  · simp [Popup.submitJobBody, findVal]
  · simp [Popup.submitJobBody, jsTruthy, htok]

/-- Witness for C1 at concrete inputs. -/
theorem btnExecute_approve_then_submit_witness :
    (Popup.btnExecute (some "plan7") "/W" none (.success "tk") 0 "r").1 =
        some ⟨"plan7", 120⟩ ∧
    (∃ b, (Popup.btnExecute (some "plan7") "/W" none (.success "tk") 0 "r").2 =
        some b ∧
      b.type = 5 ∧ findVal b.params "plan_job_id" = some "plan7" ∧
      b.approval_token = some "tk") :=
  ⟨(btnExecute_approve_then_submit "plan7" "/W" none "tk" 0 "r" (by decide)).1,
   (btnExecute_approve_then_submit "plan7" "/W" none "tk" 0 "r" (by decide)).2.1⟩

end Coworker

namespace Coworker

/-- C5 counterexample: the claim "`approval_token` is present if and only
if a non-null token was supplied" fails — supplying the non-null empty
string leaves the key absent, because the source guards with JS
truthiness (`if (approval_token)`). -/
theorem submitJob_nonnull_iff_refuted :
    ¬ (((Popup.submitJobBody none 1 [] (some "") 0 "r").approval_token.isSome
          = true) ↔ (some "" : Option String) ≠ none) := by
  decide

/-- C5 (amended): each popup's POST /jobs body has exactly the keys
`dedupe_key`, `type`, `allowed_roots`, `params`, with `approval_token`
additionally present if and only if a truthy (non-null and non-empty)
token was supplied to `submitJob`; `allowed_roots` always equals the
stored list, defaulting to `[]`.  The auto-pilot `submitJob` takes no
token, so its body always has exactly the four keys. -/
theorem submitJob_body_shape (stored : Option (List String)) (type : Nat)
    (params : Params) (atok : Option String) (now : Nat) (rand : String) :
    (Popup.submitJobBody stored type params atok now rand).allowed_roots =
        stored.getD [] ∧
    (Popup.submitJobBody stored type params atok now rand).keys =
        (if jsTruthy atok then
          ["dedupe_key", "type", "allowed_roots", "params", "approval_token"]
        else ["dedupe_key", "type", "allowed_roots", "params"]) ∧
    (jsTruthy atok = true →
        (Popup.submitJobBody stored type params atok now rand).approval_token =
          atok) ∧
    (jsTruthy atok = false →
        (Popup.submitJobBody stored type params atok now rand).approval_token =
          none) ∧
    (AutoPilot.submitJobBody stored type params now rand).keys =
        ["dedupe_key", "type", "allowed_roots", "params"] ∧
    (AutoPilot.submitJobBody stored type params now rand).allowed_roots =
        stored.getD [] := by
  refine ⟨rfl, ?_, ?_, ?_, rfl, rfl⟩ <;>
    cases h : jsTruthy atok <;>
      simp only [Popup.submitJobBody, JobBody.keys, h] <;>
      cases atok <;> simp_all [jsTruthy]

/-- Witness for C5 (amended) at a truthy token. -/
theorem submitJob_body_shape_witness :
    (Popup.submitJobBody none 2 [] (some "t") 0 "r").keys =
        ["dedupe_key", "type", "allowed_roots", "params", "approval_token"] ∧
    (Popup.submitJobBody none 2 [] (some "t") 0 "r").approval_token =
        some "t" :=
  ⟨by
    rw [(submitJob_body_shape none 2 [] (some "t") 0 "r").2.1]
    decide
  , (submitJob_body_shape none 2 [] (some "t") 0 "r").2.2.1 (by decide)⟩

theorem subSeg_nil_needle (hay : List Char) : subSeg [] hay = true := by
  cases hay <;> simp [subSeg, begMatch]

theorem begMatch_self_append (l t : List Char) : begMatch l (l ++ t) = true := by
  induction l with
  | nil => simp [begMatch]
  | cons a as ih => simp [begMatch, ih]

theorem subSeg_middle (ns pre suf : List Char) :
    subSeg ns (pre ++ (ns ++ suf)) = true := by
  induction pre with
  | nil =>
      cases ns with
      | nil => simpa using subSeg_nil_needle suf
      | cons a as =>
          have hb := begMatch_self_append (a :: as) suf
          simp only [List.cons_append] at hb
          simp [subSeg, hb]
  | cons p ps ih => simp [subSeg, ih]

theorem popupDedupeKey_uses_timestamp (type : Nat) :
    UsesTimestamp (Popup.popupDedupeKey type) := by
  intro now rand
  have h : (Popup.popupDedupeKey type now rand).data =
      ((toString type).data ++ [':']) ++
        ((toString now).data ++ ([':'] ++ rand.data)) := by
    simp [Popup.popupDedupeKey, String.data_append]
  rw [h]
  exact subSeg_middle _ _ _

theorem autoPilotDedupeKey_uses_timestamp :
    UsesTimestamp AutoPilot.autoPilotDedupeKey := by
  intro now rand
  have h : (AutoPilot.autoPilotDedupeKey now rand).data =
      "job_".data ++ ((toString now).data ++ ("_".data ++ rand.data)) := by
    simp [AutoPilot.autoPilotDedupeKey, String.data_append]
  rw [h]
  exact subSeg_middle _ _ _

/-- C6 counterexample: the claim that the source's job-submitting callers
are inconsistent about timestamps is false — both dedupe-key builders
embed `Date.now()`, so no builder omits the timestamp. -/
theorem dedupe_inconsistency_refuted : ¬ DedupeKeysInconsistent := by
  rintro ⟨-, f, hf, hnot⟩
  rcases hf with ⟨type, rfl⟩ | rfl
  · exact hnot (popupDedupeKey_uses_timestamp type)
  · exact hnot autoPilotDedupeKey_uses_timestamp

/-- C6 (amended): every job-submitting caller in the source includes the
timestamp in its dedupe key — the file-tools popup builds
`type:Date.now():Math.random()` and the auto-pilot popup builds
`job_Date.now()_Math.random()`; none omits it. -/
theorem dedupe_all_use_timestamp (f : Nat → String → String)
    (hf : IsSourceDedupeBuilder f) : UsesTimestamp f := by
  rcases hf with ⟨type, rfl⟩ | rfl
  · exact popupDedupeKey_uses_timestamp type
  · exact autoPilotDedupeKey_uses_timestamp

/-- Witness for C6 (amended) on the auto-pilot builder at concrete
inputs. -/
theorem dedupe_all_use_timestamp_witness :
    subSeg (toString 12345).data
      ((AutoPilot.autoPilotDedupeKey 12345 "0.5").data) = true :=
  dedupe_all_use_timestamp AutoPilot.autoPilotDedupeKey (Or.inr rfl) 12345 "0.5"

end Coworker

namespace Coworker.OptionsPage

theorem dropWhile_head_false (p : Char → Bool) (l : List Char) :
    ∀ a, (l.dropWhile p).head? = some a → p a = false := by
  induction l with
  | nil => intro a h; simp [List.dropWhile] at h
  | cons b t ih =>
      intro a h
      by_cases hb : p b
      · rw [List.dropWhile_cons_of_pos hb] at h
        exact ih a h
      · rw [List.dropWhile_cons_of_neg hb] at h
        simp only [List.head?_cons, Option.some.injEq] at h
        subst h
        simpa using hb

theorem dropWhile_eq_self (p : Char → Bool) (l : List Char)
    (h : ∀ a, l.head? = some a → p a = false) : l.dropWhile p = l := by
  cases l with
  | nil => rfl
  | cons a t =>
      have : p a = false := h a rfl
      simp [List.dropWhile_cons, this]

theorem jsTrimL_head_false (l : List Char) :
    ∀ a, (jsTrimL l).head? = some a → jsWs a = false := by
  intro a h
  rw [jsTrimL, List.head?_reverse] at h
  obtain ⟨t, ht⟩ := List.dropWhile_suffix (l := (l.dropWhile jsWs).reverse) jsWs
  have hne : (l.dropWhile jsWs).reverse.dropWhile jsWs ≠ [] := by
    intro hnil
    rw [hnil] at h
    simp at h
  have hgl : ((l.dropWhile jsWs).reverse.dropWhile jsWs).getLast? =
      ((l.dropWhile jsWs).reverse).getLast? := by
    conv_rhs => rw [← ht]
    exact (List.getLast?_append_of_ne_nil _ hne).symm
  rw [hgl, List.getLast?_reverse] at h
  exact dropWhile_head_false jsWs l a h

theorem jsTrimL_getLast_false (l : List Char) :
    ∀ a, (jsTrimL l).getLast? = some a → jsWs a = false := by
  intro a h
  rw [jsTrimL, List.getLast?_reverse] at h
  exact dropWhile_head_false jsWs (l.dropWhile jsWs).reverse a h

theorem jsTrimL_of_trimmed (l : List Char)
    (h1 : ∀ a, l.head? = some a → jsWs a = false)
    (h2 : ∀ a, l.getLast? = some a → jsWs a = false) : jsTrimL l = l := by
  rw [jsTrimL, dropWhile_eq_self jsWs l h1]
  rw [dropWhile_eq_self jsWs l.reverse
    (fun a ha => h2 a (by rwa [List.head?_reverse] at ha))]
  exact List.reverse_reverse l

theorem jsTrimL_idem (l : List Char) : jsTrimL (jsTrimL l) = jsTrimL l :=
  jsTrimL_of_trimmed _ (jsTrimL_head_false l) (jsTrimL_getLast_false l)

/-- C9: after the options save handler runs, the stored `allowed_roots`
are exactly the newline-separated lines of the textarea content, trimmed,
with falsy (empty) entries removed; consequently every stored element is
non-empty and has no surrounding whitespace (it is a `trim` fixed
point). -/
theorem saveRoots_trimmed_nonempty (content : String) :
    saveRoots content =
      ((splitLines content).map jsTrim).filter (fun s => !(s = "")) ∧
    (∀ r ∈ saveRoots content, r ≠ "" ∧ jsTrim r = r) ∧
    (∀ st, (optionsSave st content).allowed_roots =
        some (saveRoots content)) := by
  refine ⟨rfl, ?_, fun st => rfl⟩
  intro r hr
  rw [saveRoots, List.mem_filter] at hr
  obtain ⟨hmem, hne⟩ := hr
  rw [List.mem_map] at hmem
  obtain ⟨x, -, rfl⟩ := hmem
  refine ⟨by simpa using hne, ?_⟩
  show jsTrim ⟨jsTrimL x.data⟩ = ⟨jsTrimL x.data⟩
  rw [jsTrim]
  exact congrArg String.mk (jsTrimL_idem x.data)

/-- Witness for C9 at a concrete textarea content. -/
theorem saveRoots_trimmed_nonempty_witness :
    "a b" ∈ saveRoots "  a b  \n\n c\n" ∧
    "a b" ≠ "" ∧ jsTrim "a b" = "a b" :=
  ⟨by decide,
   (saveRoots_trimmed_nonempty "  a b  \n\n c\n").2.1 "a b" (by decide)⟩

end Coworker.OptionsPage

namespace Coworker.B64

theorem tblInv_tbl : ∀ s, s < 64 → tblInv (tbl s) = some s := by decide

theorem tbl_ne_pad : ∀ s, s < 64 → tbl s ≠ '=' := by decide

theorem asciiWs_tbl : ∀ s, s < 64 → asciiWs (tbl s) = false := by decide

theorem filter_encode (b : List Nat) (hb : ∀ x ∈ b, x < 256) :
    (b64encode b).filter (fun c => !asciiWs c) = b64encode b := by
  induction b using b64encode.induct with
  | case1 a b2 c rest ih =>
      have ha : a < 256 := hb a (by simp)
      have hb2 : b2 < 256 := hb b2 (by simp)
      have hc : c < 256 := hb c (by simp)
      rw [b64encode]
      simp only [List.filter_cons]
      rw [asciiWs_tbl _ (by omega), asciiWs_tbl _ (by omega),
        asciiWs_tbl _ (by omega), asciiWs_tbl _ (by omega)]
      simp only [Bool.not_false, if_true, reduceIte]
      rw [ih (fun x hx => hb x (by simp [hx]))]
  | case2 a b2 =>
      have ha : a < 256 := hb a (by simp)
      have hb2 : b2 < 256 := hb b2 (by simp)
      rw [b64encode]
      simp only [List.filter_cons]
      rw [asciiWs_tbl _ (by omega), asciiWs_tbl _ (by omega),
        asciiWs_tbl _ (by omega)]
      simp [asciiWs]
  | case3 a =>
      have ha : a < 256 := hb a (by simp)
      rw [b64encode]
      simp only [List.filter_cons]
      rw [asciiWs_tbl _ (by omega), asciiWs_tbl _ (by omega)]
      simp [asciiWs]
  | case4 => rfl

theorem atobChars_encode (b : List Nat) (hb : ∀ x ∈ b, x < 256) :
    atobChars (b64encode b) = some b := by
  induction b using b64encode.induct with
  | case1 a b2 c rest ih =>
      have ha : a < 256 := hb a (by simp)
      have hb2 : b2 < 256 := hb b2 (by simp)
      have hc : c < 256 := hb c (by simp)
      rw [b64encode, atobChars]
      rw [if_neg (by
        rintro ⟨-, hpad⟩
        exact tbl_ne_pad (c % 64) (by omega) hpad)]
      rw [tblInv_tbl _ (by omega), tblInv_tbl _ (by omega),
        tblInv_tbl _ (by omega), tblInv_tbl _ (by omega),
        ih (fun x hx => hb x (by simp [hx]))]
      simp only [List.cons_append, List.nil_append, Option.some.injEq,
        List.cons.injEq]
      refine ⟨by omega, by omega, by omega, trivial⟩
  | case2 a b2 =>
      have ha : a < 256 := hb a (by simp)
      have hb2 : b2 < 256 := hb b2 (by simp)
      rw [b64encode, atobChars]
      rw [if_pos (by exact ⟨rfl, rfl⟩)]
      rw [if_neg (tbl_ne_pad ((b2 % 16) * 4) (by omega))]
      rw [tblInv_tbl _ (by omega), tblInv_tbl _ (by omega),
        tblInv_tbl _ (by omega)]
      simp only [Option.some.injEq, List.cons.injEq, and_true]
      exact ⟨by omega, by omega⟩
  | case3 a =>
      have ha : a < 256 := hb a (by simp)
      rw [b64encode, atobChars]
      rw [if_pos (by exact ⟨rfl, rfl⟩), if_pos rfl]
      rw [tblInv_tbl _ (by omega), tblInv_tbl _ (by omega)]
      simp only [Option.some.injEq, List.cons.injEq, and_true]
      omega
  | case4 => rfl

theorem atob_encode (b : List Nat) (hb : ∀ x ∈ b, x < 256) :
    atob (b64encode b) = some b := by
  rw [atob, filter_encode b hb]
  exact atobChars_encode b hb

end Coworker.B64

namespace Coworker.Utf8

theorem utf8EncodeCp_lt_256 (c : Nat) (h : ScalarValue c) :
    ∀ x ∈ utf8EncodeCp c, x < 256 := by
  obtain ⟨hc, -⟩ := h
  intro x hx
  rw [utf8EncodeCp] at hx
  split_ifs at hx
  · simp only [List.mem_singleton] at hx
    omega
  · simp only [List.mem_cons, List.not_mem_nil, or_false] at hx
    rcases hx with rfl | rfl <;> omega
  · simp only [List.mem_cons, List.not_mem_nil, or_false] at hx
    rcases hx with rfl | rfl | rfl <;> omega
  · simp only [List.mem_cons, List.not_mem_nil, or_false] at hx
    rcases hx with rfl | rfl | rfl | rfl <;> omega

theorem utf8Decode_ascii (c : Nat) (h : c < 0x80) (rest : List Nat) :
    utf8Decode (c :: rest) = c :: utf8Decode rest := by
  rw [utf8Decode.eq_def]
  simp only []
  rw [if_pos h]

theorem utf8Decode_two (c : Nat) (h1 : 0x80 ≤ c) (h2 : c < 0x800)
    (rest : List Nat) :
    utf8Decode ((0xc0 + c / 64) :: ((0x80 + c % 64) :: rest)) =
      c :: utf8Decode rest := by
  rw [utf8Decode.eq_def]
  simp only []
  rw [if_neg (by omega), if_pos (by omega)]
  rw [if_pos (by unfold IsCont; omega)]
  have hv : (0xc0 + c / 64 - 0xc0) * 64 + (0x80 + c % 64 - 0x80) = c := by
    omega
  rw [hv]

theorem utf8Decode_three (c : Nat) (h1 : 0x800 ≤ c) (h2 : c < 0x10000)
    (h3 : c < 0xd800 ∨ 0xe000 ≤ c) (rest : List Nat) :
    utf8Decode ((0xe0 + c / 4096) :: ((0x80 + c / 64 % 64) ::
        ((0x80 + c % 64) :: rest))) = c :: utf8Decode rest := by
  rw [utf8Decode.eq_def]
  simp only []
  rw [if_neg (by omega), if_neg (by omega), if_pos (by omega)]
  rw [if_pos (by
    simp only [lowerBoundary, upperBoundary]
    split_ifs <;> omega)]
  rw [if_pos (by unfold IsCont; omega)]
  have hv : (0xe0 + c / 4096 - 0xe0) * 4096 + (0x80 + c / 64 % 64 - 0x80) * 64
      + (0x80 + c % 64 - 0x80) = c := by omega
  rw [hv]

theorem utf8Decode_four (c : Nat) (h1 : 0x10000 ≤ c) (h2 : c < 0x110000)
    (rest : List Nat) :
    utf8Decode ((0xf0 + c / 262144) :: ((0x80 + c / 4096 % 64) ::
        ((0x80 + c / 64 % 64) :: ((0x80 + c % 64) :: rest)))) =
      c :: utf8Decode rest := by
  rw [utf8Decode.eq_def]
  simp only []
  rw [if_neg (by omega), if_neg (by omega), if_neg (by omega),
    if_pos (by omega)]
  rw [if_pos (by
    simp only [lowerBoundary, upperBoundary]
    split_ifs <;> omega)]
  rw [if_pos (by unfold IsCont; omega)]
  rw [if_pos (by unfold IsCont; omega)]
  have hv : (0xf0 + c / 262144 - 0xf0) * 262144 +
      (0x80 + c / 4096 % 64 - 0x80) * 4096 +
      (0x80 + c / 64 % 64 - 0x80) * 64 + (0x80 + c % 64 - 0x80) = c := by
    omega
  rw [hv]

theorem utf8Decode_encodeCp (c : Nat) (h : ScalarValue c) (rest : List Nat) :
    utf8Decode (utf8EncodeCp c ++ rest) = c :: utf8Decode rest := by
  obtain ⟨hc, hsur⟩ := h
  rw [utf8EncodeCp]
  split_ifs with ha hb hd
  · simpa using utf8Decode_ascii c ha rest
  · simpa using utf8Decode_two c (by omega) hb rest
  · simpa using utf8Decode_three c (by omega) hd hsur rest
  · simpa using utf8Decode_four c (by omega) hc rest

theorem utf8_roundtrip (s : List Nat) (hs : ∀ c ∈ s, ScalarValue c) :
    utf8Decode (utf8Encode s) = s := by
  induction s with
  | nil => rfl
  | cons c cs ih =>
      rw [utf8Encode, List.flatMap_cons]
      rw [show cs.flatMap utf8EncodeCp = utf8Encode cs from rfl]
      rw [utf8Decode_encodeCp c (hs c (by simp))]
      rw [ih (fun x hx => hs x (by simp [hx]))]

theorem utf8Encode_lt_256 (s : List Nat) (hs : ∀ c ∈ s, ScalarValue c) :
    ∀ x ∈ utf8Encode s, x < 256 := by
  intro x hx
  rw [utf8Encode, List.mem_flatMap] at hx
  obtain ⟨c, hc, hxc⟩ := hx
  exact utf8EncodeCp_lt_256 c (hs c hc) x hxc

end Coworker.Utf8

namespace Coworker

/-- C10: `decodeUTF8` applied to the standard base64 encoding of any byte
sequence returns the UTF-8 decoding of those bytes; in particular,
base64-encoding the UTF-8 bytes of any sequence of Unicode scalar values
and applying `decodeUTF8` yields the original sequence (round trip). -/
theorem decodeUTF8_base64_roundtrip (b : List Nat) (hb : ∀ x ∈ b, x < 256) :
    AutoPilot.decodeUTF8 (B64.b64encode b) = some (Utf8.utf8Decode b) ∧
    (∀ s : List Nat, (∀ c ∈ s, Utf8.ScalarValue c) →
        AutoPilot.decodeUTF8 (B64.b64encode (Utf8.utf8Encode s)) = some s) := by
  constructor
  · rw [AutoPilot.decodeUTF8, B64.atob_encode b hb]
  · intro s hs
    rw [AutoPilot.decodeUTF8,
      B64.atob_encode (Utf8.utf8Encode s) (Utf8.utf8Encode_lt_256 s hs)]
    show some (Utf8.utf8Decode (Utf8.utf8Encode s)) = some s
    rw [Utf8.utf8_roundtrip s hs]

/-- Witness for C10 on concrete bytes and code points. -/
theorem decodeUTF8_base64_roundtrip_witness :
    AutoPilot.decodeUTF8 (B64.b64encode [104, 105]) =
        some (Utf8.utf8Decode [104, 105]) ∧
    AutoPilot.decodeUTF8 (B64.b64encode (Utf8.utf8Encode [104, 233, 8364])) =
        some [104, 233, 8364] :=
  ⟨(decodeUTF8_base64_roundtrip [104, 105] (by decide)).1,
   (decodeUTF8_base64_roundtrip [104, 105] (by decide)).2 [104, 233, 8364]
     (by decide)⟩

end Coworker
